import Mathlib

/-!
Shallow embedding of the virtual-media boot orchestration in `main.go` of
the simple-iso repository, together with theorems settling the spec claims.

The embedding models:
- the Redfish media-type and virtual-media data (`MediaType`, `VirtualMedia`),
- the discovery loop of `testVirtualMedia` (`selectVM`, `discoverVM`),
- the remote-call world (`BMCWorld`): each remote call's outcome, in program
  order, so `testVirtualMedia` becomes a pure function from the world to the
  ordered trace of media calls it issues (`Event`) and its `error` result,
- the `main` control flow (`runMain`) and the TLS/plain decision of
  `startHTTPServer` (`serveScheme`).
-/

/-- Redfish media types, from gofish's `redfish.MediaType` constants used by
virtual media resources. `CD` is `redfish.CDMediaType` ("optical disc"). -/
inductive MediaType
  | CD
  | DVD
  | Floppy
  | USBStick
deriving DecidableEq, Repr

/-- A discovered virtual-media resource: its identifier, its `MediaTypes`
list and its `Inserted` flag, as read by `testVirtualMedia`. -/
structure VirtualMedia where
  ID : String
  MediaTypes : List MediaType
  Inserted : Bool
deriving DecidableEq, Repr

/-- Outcome of handling one element of `system.ManagedBy` in the discovery
loop: `redfish.GetManager` may fail, then `manager.VirtualMedia()` may fail,
otherwise the manager's ordered virtual-media list is returned. -/
inductive ManagerFetch
  | getManagerErr (e : String)
  | vmListErr (e : String)
  | ok (vms : List VirtualMedia)
deriving DecidableEq, Repr

/-- Predicate of the inner loop of `testVirtualMedia`: the `vm.MediaTypes`
loop assigns `isoVM = vm` exactly when some entry equals `redfish.CDMediaType`
(the inner `break` only leaves the media-type loop). -/
def supportsCD (vm : VirtualMedia) : Bool :=
  vm.MediaTypes.contains MediaType.CD

/-- The per-manager body of the discovery loop: fold the manager's
virtual-media list over the current `isoVM` value, replacing it by each
resource whose media types contain `CD`. -/
def selectVM (acc : Option VirtualMedia) (vms : List VirtualMedia) :
    Option VirtualMedia :=
  vms.foldl (fun acc vm => if supportsCD vm then some vm else acc) acc

/-- The discovery loop over `system.ManagedBy`: a `GetManager` or
`VirtualMedia()` error returns immediately with that error; otherwise every
manager is processed in order and the loop continues to the end even after a
match. -/
def discoverVM (acc : Option VirtualMedia) :
    List ManagerFetch → Except String (Option VirtualMedia)
  | [] => Except.ok acc
  | ManagerFetch.getManagerErr e :: _ => Except.error e
  | ManagerFetch.vmListErr e :: _ => Except.error e
  | ManagerFetch.ok vms :: rest => discoverVM (selectVM acc vms) rest

/-- Observable calls issued by `testVirtualMedia`, in program order. -/
inductive Event
  | eject
  | insertMedia (image : String) (inserted : Bool) (writeProtected : Bool)
  | reset (resetType : String)
  | sleepMinutes (n : Nat)
deriving DecidableEq, Repr

/-- The outcomes of the remote calls `testVirtualMedia` makes, in program
order: URL parsing of the BMC address, `gofish.Connect`,
`redfish.GetComputerSystem`, the per-manager discovery fetches, then the
pre-insert `EjectMedia`, `InsertMedia`, `system.Reset` and the post-dwell
`EjectMedia`. `none` means the call succeeds; `some e` is the error text. -/
structure BMCWorld where
  parseErr : Option String
  connectErr : Option String
  getSystemErr : Option String
  managers : List ManagerFetch
  ejectPre : Option String
  insertRes : Option String
  resetRes : Option String
  ejectPost : Option String
deriving DecidableEq, Repr

/-- The tail of `testVirtualMedia` from the `InsertMedia` call on: insert
(marked inserted and write-protected), reset with the "On" reset type, the
unconditional `time.Sleep(5 * time.Minute)`, and the final `EjectMedia`
whose failure is returned as an error. -/
def insertOnward (w : BMCWorld) (isoURL : String) :
    List Event × Except String Unit :=
  match w.insertRes with
  | some e => ([Event.insertMedia isoURL true true],
      Except.error (String.append "failed to insert media: " e))
  | none =>
    match w.resetRes with
    | some e => ([Event.insertMedia isoURL true true, Event.reset "On"],
        Except.error (String.append "failed to boot system: " e))
    | none =>
      match w.ejectPost with
      | some e => ([Event.insertMedia isoURL true true, Event.reset "On",
          Event.sleepMinutes 5, Event.eject],
          Except.error (String.append "failed to eject media: " e))
      | none => ([Event.insertMedia isoURL true true, Event.reset "On",
          Event.sleepMinutes 5, Event.eject], Except.ok ())

/-- `testVirtualMedia` of `main.go` as a pure function from the call-outcome
world to the trace of issued media calls and the function's result: parse the
BMC address, connect, resolve the computer system, run the discovery loop,
fail with "failed to find CD type virtual media" when no CD-capable resource
was found, eject first exactly when the selected resource is `Inserted`, then
insert, reset, sleep five minutes and eject again. -/
def testVirtualMedia (w : BMCWorld) (isoURL : String) :
    List Event × Except String Unit :=
  match w.parseErr with
  | some e => ([], Except.error (String.append "failed to parse BMC Address: " e))
  | none =>
  match w.connectErr with
  | some e => ([], Except.error (String.append "failed to connect to BMC: " e))
  | none =>
  match w.getSystemErr with
  | some e => ([], Except.error (String.append "failed to get computer system: " e))
  | none =>
  match discoverVM none w.managers with
  | Except.error e => ([], Except.error e)
  | Except.ok none => ([], Except.error "failed to find CD type virtual media")
  | Except.ok (some vm) =>
    if vm.Inserted then
      match w.ejectPre with
      | some e => ([Event.eject],
          Except.error (String.append "failed to eject media: " e))
      | none =>
        ((Event.eject :: (insertOnward w isoURL).1), (insertOnward w isoURL).2)
    else insertOnward w isoURL

/-- The steps of `main` relevant to ordering: ISO creation and finalization,
starting the HTTP server, running `testVirtualMedia`, and waiting for the
shutdown signal. -/
inductive MainStep
  | createISO
  | startServer
  | runOrchestration
  | waitForShutdown
deriving DecidableEq, Repr

/-- The inputs `main` branches on: whether `createTestISO` and
`url.JoinPath` fail (both fatal), the configured `BMC_ADDRESS`, and the
call-outcome world and ISO URL passed to `testVirtualMedia`. -/
structure MainWorld where
  buildErr : Option String
  joinErr : Option String
  bmcAddress : String
  bmc : BMCWorld
  isoURL : String
deriving Repr

/-- `main` of `main.go`: build the ISO (failure is `log.Fatal`), join the
ISO URL (failure is `log.Fatal`), start the HTTP server, run
`testVirtualMedia` only when `BMC_ADDRESS` is non-empty — its error is
logged and the flow continues either way — then wait for shutdown. Returns
the executed steps and whether the process exited fatally. -/
def runMain (w : MainWorld) : List MainStep × Bool :=
  match w.buildErr with
  | some _ => ([MainStep.createISO], true)
  | none =>
  match w.joinErr with
  | some _ => ([MainStep.createISO], true)
  | none =>
    if w.bmcAddress = "" then
      ([MainStep.createISO, MainStep.startServer, MainStep.waitForShutdown],
        false)
    else
      match (testVirtualMedia w.bmc w.isoURL).2 with
      | Except.error _ =>
        ([MainStep.createISO, MainStep.startServer,
          MainStep.runOrchestration, MainStep.waitForShutdown], false)
      | Except.ok _ =>
        ([MainStep.createISO, MainStep.startServer,
          MainStep.runOrchestration, MainStep.waitForShutdown], false)

/-- The scheme `startHTTPServer` serves with. -/
inductive ServeScheme
  | https
  | http
deriving DecidableEq, Repr

/-- The serving decision of `startHTTPServer`: `ListenAndServeTLS` exactly
when both the key file and the cert file are non-empty, else
`ListenAndServe`; the listen address is ":" followed by the port in both
branches. -/
def startHTTPServer (port httpsKeyFile httpsCertFile : String) :
    String × ServeScheme :=
  (String.append ":" port,
    if httpsKeyFile ≠ "" ∧ httpsCertFile ≠ "" then ServeScheme.https
    else ServeScheme.http)

/-- `true` exactly on `insertMedia` events. -/
def isInsertEvent : Event → Bool
  | Event.insertMedia _ _ _ => true
  | _ => false

/-- `true` exactly on `eject` events. -/
def isEjectEvent : Event → Bool
  | Event.eject => true
  | _ => false

/-- `true` exactly on `reset` events. -/
def isResetEvent : Event → Bool
  | Event.reset _ => true
  | _ => false

/-- `true` exactly on `sleepMinutes` events. -/
def isSleepEvent : Event → Bool
  | Event.sleepMinutes _ => true
  | _ => false

/-- Number of eject calls issued strictly before the first insert call. -/
def ejectsBeforeInsert (tr : List Event) : Nat :=
  (tr.takeWhile (fun e => !isInsertEvent e)).countP isEjectEvent

/-! ### Characterization of the discovery loop -/

theorem selectVM_concat (acc : Option VirtualMedia) (l : List VirtualMedia)
    (x : VirtualMedia) :
    selectVM acc (l ++ [x])
      = if supportsCD x then some x else selectVM acc l := by
  unfold selectVM
  rw [List.foldl_append]
  rfl

theorem selectVM_eq_getLast (l : List VirtualMedia) (acc : Option VirtualMedia) :
    selectVM acc l = ((l.filter supportsCD).getLast?).elim acc some := by
  induction l using List.reverseRecOn with
  | nil => rfl
  | append_singleton l x ih =>
    rw [selectVM_concat, List.filter_append]
    by_cases hx : supportsCD x
    · simp only [hx, if_true, List.filter_cons, List.filter_nil,
        List.getLast?_concat, Option.elim]
    · simp only [hx, if_false, Bool.false_eq_true, List.filter_cons,
        List.filter_nil, List.append_nil, ih]

theorem discoverVM_allOk (ms : List (List VirtualMedia))
    (acc : Option VirtualMedia) :
    discoverVM acc (ms.map ManagerFetch.ok)
      = Except.ok (ms.foldl selectVM acc) := by
  induction ms generalizing acc with
  | nil => rfl
  | cons m rest ih => exact ih (selectVM acc m)

theorem foldl_selectVM_flatten (ms : List (List VirtualMedia))
    (acc : Option VirtualMedia) :
    ms.foldl selectVM acc = selectVM acc ms.flatten := by
  unfold selectVM
  rw [List.foldl_flatten]

/-- C1: the claim says discovery selects the *first* CD-capable resource and
stops at the first match. The code's inner `break` only leaves the
media-type loop, so every manager and resource is scanned and each
CD-capable resource overwrites the previous choice: with one manager
exposing two CD-capable resources the second one is selected, not the
first. -/
theorem discovery_not_first_match :
    discoverVM none
        [ManagerFetch.ok [VirtualMedia.mk "vm0" [MediaType.CD] false,
          VirtualMedia.mk "vm1" [MediaType.CD] false]]
      = Except.ok (some (VirtualMedia.mk "vm1" [MediaType.CD] false)) ∧
    (([VirtualMedia.mk "vm0" [MediaType.CD] false,
        VirtualMedia.mk "vm1" [MediaType.CD] false].filter supportsCD).head?
      = some (VirtualMedia.mk "vm0" [MediaType.CD] false)) ∧
    VirtualMedia.mk "vm0" [MediaType.CD] false
      ≠ VirtualMedia.mk "vm1" [MediaType.CD] false := by
  refine ⟨rfl, rfl, ?_⟩
  decide

/-- C1 (amended): for every error-free discovery sequence, the loop scans
all managers in order and all resources in order and selects the *last*
resource whose media-kind list contains the CD kind (`getLast?` of the
CD-capable resources in discovery order); it does not stop at the first
match. -/
theorem discovery_selects_last_CD (ms : List (List VirtualMedia)) :
    discoverVM none (ms.map ManagerFetch.ok)
      = Except.ok ((ms.flatten.filter supportsCD).getLast?) := by
  rw [discoverVM_allOk, foldl_selectVM_flatten, selectVM_eq_getLast]
  cases (ms.flatten.filter supportsCD).getLast? <;> rfl

/-! ### Behaviour of `testVirtualMedia` once a resource is selected -/

theorem testVM_selected (w : BMCWorld) (url : String) (vm : VirtualMedia)
    (hp : w.parseErr = none) (hc : w.connectErr = none)
    (hg : w.getSystemErr = none)
    (hd : discoverVM none w.managers = Except.ok (some vm)) :
    testVirtualMedia w url =
      if vm.Inserted then
        match w.ejectPre with
        | some e => ([Event.eject],
            Except.error (String.append "failed to eject media: " e))
        | none =>
          ((Event.eject :: (insertOnward w url).1), (insertOnward w url).2)
      else insertOnward w url := by
  simp only [testVirtualMedia, hp, hc, hg, hd]

/-- C2: once a resource is selected and the run reaches the insert call,
exactly one eject is issued before the first insert when the selected
resource is `Inserted`, and none when it is not; the insert call itself is
issued exactly once. -/
theorem eject_iff_inserted_before_insert (w : BMCWorld) (url : String)
    (vm : VirtualMedia)
    (hp : w.parseErr = none) (hc : w.connectErr = none)
    (hg : w.getSystemErr = none)
    (hd : discoverVM none w.managers = Except.ok (some vm))
    (hej : vm.Inserted = true → w.ejectPre = none) :
    ejectsBeforeInsert (testVirtualMedia w url).1
      = (if vm.Inserted then 1 else 0) ∧
    (testVirtualMedia w url).1.countP isInsertEvent = 1 := by
  rw [testVM_selected w url vm hp hc hg hd]
  cases hins : vm.Inserted with
  | true =>
    rw [hej hins]
    simp only [if_true]
    unfold insertOnward
    cases w.insertRes <;> cases w.resetRes <;> cases w.ejectPost <;>
      simp [ejectsBeforeInsert, isInsertEvent, isEjectEvent,
        List.takeWhile, List.countP, List.countP.go]
  | false =>
    simp only [Bool.false_eq_true, if_false]
    unfold insertOnward
    cases w.insertRes <;> cases w.resetRes <;> cases w.ejectPost <;>
      simp [ejectsBeforeInsert, isInsertEvent, isEjectEvent,
        List.takeWhile, List.countP, List.countP.go]

/-- C2 witness: one manager with two resources, the second CD-capable and
empty — no eject precedes the single insert. -/
theorem eject_iff_inserted_before_insert_witness :
    ejectsBeforeInsert
        (testVirtualMedia
          (BMCWorld.mk none none none
            [ManagerFetch.ok
              [VirtualMedia.mk "Floppy1" [MediaType.Floppy] false,
                VirtualMedia.mk "Cd1" [MediaType.CD, MediaType.DVD] false]]
            none none none none)
          "http://host/images/test-config.iso").1
      = (if (VirtualMedia.mk "Cd1" [MediaType.CD, MediaType.DVD] false).Inserted
          then 1 else 0) ∧
    (testVirtualMedia
        (BMCWorld.mk none none none
          [ManagerFetch.ok
            [VirtualMedia.mk "Floppy1" [MediaType.Floppy] false,
              VirtualMedia.mk "Cd1" [MediaType.CD, MediaType.DVD] false]]
          none none none none)
        "http://host/images/test-config.iso").1.countP isInsertEvent = 1 :=
  eject_iff_inserted_before_insert
    (BMCWorld.mk none none none
      [ManagerFetch.ok
        [VirtualMedia.mk "Floppy1" [MediaType.Floppy] false,
          VirtualMedia.mk "Cd1" [MediaType.CD, MediaType.DVD] false]]
      none none none none)
    "http://host/images/test-config.iso"
    (VirtualMedia.mk "Cd1" [MediaType.CD, MediaType.DVD] false)
    rfl rfl rfl rfl (by decide)

theorem discoverVM_ok_none (w : BMCWorld) (ms : List (List VirtualMedia))
    (hm : w.managers = ms.map ManagerFetch.ok)
    (hnone : ∀ vm ∈ ms.flatten, supportsCD vm = false) :
    discoverVM none w.managers = Except.ok none := by
  rw [hm, discoverVM_allOk, foldl_selectVM_flatten, selectVM_eq_getLast]
  have hfil : ms.flatten.filter supportsCD = [] := by
    rw [List.filter_eq_nil_iff]
    intro a ha
    simp [hnone a ha]
  rw [hfil]
  rfl

/-- C3: when no virtual-media resource of any manager supports the CD kind,
`testVirtualMedia` returns the "failed to find CD type virtual media" error
with an empty call trace — no eject, insert or reset call is issued. -/
theorem no_compatible_media_aborts (w : BMCWorld) (url : String)
    (ms : List (List VirtualMedia))
    (hp : w.parseErr = none) (hc : w.connectErr = none)
    (hg : w.getSystemErr = none)
    (hm : w.managers = ms.map ManagerFetch.ok)
    (hnone : ∀ vm ∈ ms.flatten, supportsCD vm = false) :
    testVirtualMedia w url
      = ([], Except.error "failed to find CD type virtual media") := by
  have hd := discoverVM_ok_none w ms hm hnone
  simp only [testVirtualMedia, hp, hc, hg, hd]

/-- C3 witness: one manager with one floppy-only resource yields the
no-compatible-media error and an empty trace. -/
theorem no_compatible_media_aborts_witness :
    testVirtualMedia
        (BMCWorld.mk none none none
          [ManagerFetch.ok [VirtualMedia.mk "Floppy1" [MediaType.Floppy] true]]
          none none none none)
        "http://host/images/test-config.iso"
      = ([], Except.error "failed to find CD type virtual media") :=
  no_compatible_media_aborts
    (BMCWorld.mk none none none
      [ManagerFetch.ok [VirtualMedia.mk "Floppy1" [MediaType.Floppy] true]]
      none none none none)
    "http://host/images/test-config.iso"
    [[VirtualMedia.mk "Floppy1" [MediaType.Floppy] true]]
    rfl rfl rfl rfl (by decide)

theorem discoverVM_err_after (ms : List (List VirtualMedia))
    (mf : ManagerFetch) (e : String) (rest : List ManagerFetch)
    (acc : Option VirtualMedia)
    (hmf : mf = ManagerFetch.getManagerErr e ∨ mf = ManagerFetch.vmListErr e) :
    discoverVM acc (ms.map ManagerFetch.ok ++ mf :: rest)
      = Except.error e := by
  induction ms generalizing acc with
  | nil => rcases hmf with h | h <;> rw [h] <;> rfl
  | cons m tl ih => exact ih (selectVM acc m)

/-- C10: discovery never stops early — a `GetManager` or `VirtualMedia()`
error on a later manager aborts the whole orchestration with that error and
an empty call trace, even when an earlier manager already yielded a
CD-capable resource. -/
theorem later_manager_error_aborts (w : BMCWorld) (url : String)
    (ms : List (List VirtualMedia)) (vm : VirtualMedia)
    (mf : ManagerFetch) (e : String) (rest : List ManagerFetch)
    (hp : w.parseErr = none) (hc : w.connectErr = none)
    (hg : w.getSystemErr = none)
    (hm : w.managers = ms.map ManagerFetch.ok ++ mf :: rest)
    (_hearlier : vm ∈ ms.flatten ∧ supportsCD vm = true)
    (hmf : mf = ManagerFetch.getManagerErr e ∨ mf = ManagerFetch.vmListErr e) :
    testVirtualMedia w url = ([], Except.error e) := by
  have hd : discoverVM none w.managers = Except.error e := by
    rw [hm]
    exact discoverVM_err_after ms mf e rest none hmf
  simp only [testVirtualMedia, hp, hc, hg, hd]

/-- C10 witness: the first manager exposes a CD-capable resource, fetching
the second manager fails — the orchestration reports that fetch error. -/
theorem later_manager_error_aborts_witness :
    testVirtualMedia
        (BMCWorld.mk none none none
          [ManagerFetch.ok [VirtualMedia.mk "Cd1" [MediaType.CD] false],
            ManagerFetch.getManagerErr "manager 2 unreachable"]
          none none none none)
        "http://host/images/test-config.iso"
      = ([], Except.error "manager 2 unreachable") :=
  later_manager_error_aborts
    (BMCWorld.mk none none none
      [ManagerFetch.ok [VirtualMedia.mk "Cd1" [MediaType.CD] false],
        ManagerFetch.getManagerErr "manager 2 unreachable"]
      none none none none)
    "http://host/images/test-config.iso"
    [[VirtualMedia.mk "Cd1" [MediaType.CD] false]]
    (VirtualMedia.mk "Cd1" [MediaType.CD] false)
    (ManagerFetch.getManagerErr "manager 2 unreachable")
    "manager 2 unreachable" []
    rfl rfl rfl rfl (by constructor <;> decide) (Or.inl rfl)

/-- C4: when orchestration runs and returns an error, `main` does not exit:
the error is logged, the run is not fatal, and the flow proceeds to wait for
shutdown with the server still up. -/
theorem orchestration_error_nonfatal (w : MainWorld) (e : String)
    (hb : w.buildErr = none) (hj : w.joinErr = none)
    (hbmc : w.bmcAddress ≠ "")
    (herr : (testVirtualMedia w.bmc w.isoURL).2 = Except.error e) :
    runMain w
      = ([MainStep.createISO, MainStep.startServer,
          MainStep.runOrchestration, MainStep.waitForShutdown], false) := by
  simp [runMain, hb, hj, hbmc, herr]

/-- C4 witness: a BMC whose connection fails — orchestration errors, the
process still reaches the shutdown wait without a fatal exit. -/
theorem orchestration_error_nonfatal_witness :
    runMain
        (MainWorld.mk none none "https://bmc.example/redfish/v1/Systems/1"
          (BMCWorld.mk none (some "connection refused") none [] none none
            none none)
          "http://host/images/test-config.iso")
      = ([MainStep.createISO, MainStep.startServer,
          MainStep.runOrchestration, MainStep.waitForShutdown], false) :=
  orchestration_error_nonfatal
    (MainWorld.mk none none "https://bmc.example/redfish/v1/Systems/1"
      (BMCWorld.mk none (some "connection refused") none [] none none
        none none)
      "http://host/images/test-config.iso")
    "failed to connect to BMC: connection refused"
    rfl rfl (by decide) rfl

/-- C8: with a successful build and URL join, `main` executes ISO creation,
then server start, then — exactly when `BMC_ADDRESS` is non-empty —
orchestration, then the shutdown wait; an empty `BMC_ADDRESS` skips
orchestration without any error, and the indices of the executed steps show
build strictly precedes server start, which strictly precedes orchestration
(when present), which strictly precedes the shutdown wait. -/
theorem main_step_ordering (w : MainWorld)
    (hb : w.buildErr = none) (hj : w.joinErr = none) :
    runMain w
      = ((if w.bmcAddress = ""
          then [MainStep.createISO, MainStep.startServer,
            MainStep.waitForShutdown]
          else [MainStep.createISO, MainStep.startServer,
            MainStep.runOrchestration, MainStep.waitForShutdown]), false) ∧
    ((MainStep.runOrchestration ∈ (runMain w).1) ↔ w.bmcAddress ≠ "") ∧
    (runMain w).1.indexOf MainStep.createISO
        < (runMain w).1.indexOf MainStep.startServer ∧
    (runMain w).1.indexOf MainStep.startServer
        < (runMain w).1.indexOf MainStep.waitForShutdown ∧
    (w.bmcAddress ≠ "" →
      (runMain w).1.indexOf MainStep.startServer
          < (runMain w).1.indexOf MainStep.runOrchestration ∧
      (runMain w).1.indexOf MainStep.runOrchestration
          < (runMain w).1.indexOf MainStep.waitForShutdown) := by
  by_cases hbmc : w.bmcAddress = ""
  · have hrw : runMain w
        = ([MainStep.createISO, MainStep.startServer,
            MainStep.waitForShutdown], false) := by
      simp [runMain, hb, hj, hbmc]
    rw [hrw]
    exact ⟨by simp [hbmc], by simp [hbmc], by decide, by decide,
      fun h => absurd hbmc h⟩
  · have hrw : runMain w
        = ([MainStep.createISO, MainStep.startServer,
            MainStep.runOrchestration, MainStep.waitForShutdown], false) := by
      have hfj : w.joinErr = none := hj
      simp only [runMain, hb, hfj]
      rw [if_neg hbmc]
      cases (testVirtualMedia w.bmc w.isoURL).2 <;> rfl
    rw [hrw]
    exact ⟨by simp [hbmc], by simp [hbmc], by decide, by decide,
      fun _ => ⟨by decide, by decide⟩⟩

/-- C8 witness: with no BMC address configured, `main` builds the image,
starts the server and waits for shutdown — orchestration is skipped and the
run is not fatal. -/
theorem main_step_ordering_witness :
    runMain
        (MainWorld.mk none none ""
          (BMCWorld.mk none none none [] none none none none)
          "http://host/images/test-config.iso")
      = (if ("" : String) = ""
          then [MainStep.createISO, MainStep.startServer,
            MainStep.waitForShutdown]
          else [MainStep.createISO, MainStep.startServer,
            MainStep.runOrchestration, MainStep.waitForShutdown], false) :=
  (main_step_ordering
    (MainWorld.mk none none ""
      (BMCWorld.mk none none none [] none none none none)
      "http://host/images/test-config.iso")
    rfl rfl).1

/-- C5 counterexample: the code has no dwell-mode switch. In a fully
successful run the five-minute sleep occurs between the reset and
continuation and a final eject is issued, so the claimed dwell-disabled
behaviour (no wait, no final eject) holds for no configuration. -/
theorem dwell_cannot_be_disabled :
    testVirtualMedia
        (BMCWorld.mk none none none
          [ManagerFetch.ok [VirtualMedia.mk "Cd1" [MediaType.CD] false]]
          none none none none)
        "http://host/images/test-config.iso"
      = ([Event.insertMedia "http://host/images/test-config.iso" true true,
          Event.reset "On", Event.sleepMinutes 5, Event.eject],
        Except.ok ()) := rfl

/-- C5 (amended): dwell is unconditional — in every run that reaches a
successful reset, the trace ends with the fixed five-minute sleep followed
by the final eject call (issued whether or not it then succeeds), after the
insert and the "On" reset. -/
theorem fixed_dwell_then_final_eject (w : BMCWorld) (url : String)
    (vm : VirtualMedia)
    (hp : w.parseErr = none) (hc : w.connectErr = none)
    (hg : w.getSystemErr = none)
    (hd : discoverVM none w.managers = Except.ok (some vm))
    (hej : vm.Inserted = true → w.ejectPre = none)
    (hins : w.insertRes = none) (hrst : w.resetRes = none) :
    (testVirtualMedia w url).1
      = (if vm.Inserted then [Event.eject] else [])
        ++ [Event.insertMedia url true true, Event.reset "On",
            Event.sleepMinutes 5, Event.eject] := by
  rw [testVM_selected w url vm hp hc hg hd]
  cases hpost : w.ejectPost <;> cases hi : vm.Inserted <;>
    simp [insertOnward, hins, hrst, hpost, hej, hi]

/-- C5 witness: an occupied CD slot — the trace is the pre-insert eject,
the insert, the "On" reset, the five-minute sleep and the final eject. -/
theorem fixed_dwell_then_final_eject_witness :
    (testVirtualMedia
        (BMCWorld.mk none none none
          [ManagerFetch.ok [VirtualMedia.mk "Cd2" [MediaType.CD] true]]
          none none none none)
        "http://host/images/test-config.iso").1
      = (if (VirtualMedia.mk "Cd2" [MediaType.CD] true).Inserted
          then [Event.eject] else [])
        ++ [Event.insertMedia "http://host/images/test-config.iso" true true,
            Event.reset "On", Event.sleepMinutes 5, Event.eject] :=
  fixed_dwell_then_final_eject
    (BMCWorld.mk none none none
      [ManagerFetch.ok [VirtualMedia.mk "Cd2" [MediaType.CD] true]]
      none none none none)
    "http://host/images/test-config.iso"
    (VirtualMedia.mk "Cd2" [MediaType.CD] true)
    rfl rfl rfl rfl (fun _ => rfl) rfl rfl

/-- C6 counterexample: when the post-dwell eject fails, `testVirtualMedia`
returns that failure as its error — the orchestration does not report
success. -/
theorem post_dwell_eject_failure_is_reported :
    testVirtualMedia
        (BMCWorld.mk none none none
          [ManagerFetch.ok [VirtualMedia.mk "Cd1" [MediaType.CD] false]]
          none none none (some "device busy"))
        "http://host/images/test-config.iso"
      = ([Event.insertMedia "http://host/images/test-config.iso" true true,
          Event.reset "On", Event.sleepMinutes 5, Event.eject],
        Except.error "failed to eject media: device busy") := rfl

/-- C6 (amended): a post-dwell eject failure makes the orchestration return
the eject error even though the boot was already issued; like every
orchestration error it is non-fatal to the host process — `main` logs it
and continues to the shutdown wait. -/
theorem post_dwell_eject_error_nonfatal (mw : MainWorld) (vm : VirtualMedia)
    (e : String)
    (hp : mw.bmc.parseErr = none) (hc : mw.bmc.connectErr = none)
    (hg : mw.bmc.getSystemErr = none)
    (hd : discoverVM none mw.bmc.managers = Except.ok (some vm))
    (hej : vm.Inserted = true → mw.bmc.ejectPre = none)
    (hins : mw.bmc.insertRes = none) (hrst : mw.bmc.resetRes = none)
    (hpost : mw.bmc.ejectPost = some e)
    (hb : mw.buildErr = none) (hj : mw.joinErr = none)
    (hbmc : mw.bmcAddress ≠ "") :
    (testVirtualMedia mw.bmc mw.isoURL).2
      = Except.error (String.append "failed to eject media: " e) ∧
    Event.reset "On" ∈ (testVirtualMedia mw.bmc mw.isoURL).1 ∧
    runMain mw
      = ([MainStep.createISO, MainStep.startServer,
          MainStep.runOrchestration, MainStep.waitForShutdown], false) := by
  have hrun := testVM_selected mw.bmc mw.isoURL vm hp hc hg hd
  have hres : (testVirtualMedia mw.bmc mw.isoURL).2
      = Except.error (String.append "failed to eject media: " e) := by
    rw [hrun]
    cases hi : vm.Inserted <;>
      simp [insertOnward, hins, hrst, hpost, hej, hi]
  refine ⟨hres, ?_, ?_⟩
  · rw [hrun]
    cases hi : vm.Inserted <;>
      simp [insertOnward, hins, hrst, hpost, hej, hi]
  · simp [runMain, hb, hj, hbmc, hres]

/-- C6 witness: a run whose final eject fails reports the eject error, the
reset was already issued, and the process still reaches the shutdown wait
without a fatal exit. -/
theorem post_dwell_eject_error_nonfatal_witness :
    (testVirtualMedia
        (MainWorld.mk none none "https://bmc.example/redfish/v1/Systems/1"
          (BMCWorld.mk none none none
            [ManagerFetch.ok [VirtualMedia.mk "Cd3" [MediaType.CD] false]]
            none none none (some "device busy"))
          "http://host/images/test-config.iso").bmc
        (MainWorld.mk none none "https://bmc.example/redfish/v1/Systems/1"
          (BMCWorld.mk none none none
            [ManagerFetch.ok [VirtualMedia.mk "Cd3" [MediaType.CD] false]]
            none none none (some "device busy"))
          "http://host/images/test-config.iso").isoURL).2
      = Except.error (String.append "failed to eject media: " "device busy") ∧
    Event.reset "On" ∈ (testVirtualMedia
        (MainWorld.mk none none "https://bmc.example/redfish/v1/Systems/1"
          (BMCWorld.mk none none none
            [ManagerFetch.ok [VirtualMedia.mk "Cd3" [MediaType.CD] false]]
            none none none (some "device busy"))
          "http://host/images/test-config.iso").bmc
        (MainWorld.mk none none "https://bmc.example/redfish/v1/Systems/1"
          (BMCWorld.mk none none none
            [ManagerFetch.ok [VirtualMedia.mk "Cd3" [MediaType.CD] false]]
            none none none (some "device busy"))
          "http://host/images/test-config.iso").isoURL).1 ∧
    runMain
        (MainWorld.mk none none "https://bmc.example/redfish/v1/Systems/1"
          (BMCWorld.mk none none none
            [ManagerFetch.ok [VirtualMedia.mk "Cd3" [MediaType.CD] false]]
            none none none (some "device busy"))
          "http://host/images/test-config.iso")
      = ([MainStep.createISO, MainStep.startServer,
          MainStep.runOrchestration, MainStep.waitForShutdown], false) :=
  post_dwell_eject_error_nonfatal
    (MainWorld.mk none none "https://bmc.example/redfish/v1/Systems/1"
      (BMCWorld.mk none none none
        [ManagerFetch.ok [VirtualMedia.mk "Cd3" [MediaType.CD] false]]
        none none none (some "device busy"))
      "http://host/images/test-config.iso")
    (VirtualMedia.mk "Cd3" [MediaType.CD] false)
    "device busy"
    rfl rfl rfl rfl (by decide) rfl rfl rfl rfl rfl (by decide)

theorem insertOnward_events (w : BMCWorld) (url : String) :
    Event.insertMedia url true true ∈ (insertOnward w url).1 ∧
    (∀ i b p, Event.insertMedia i b p ∈ (insertOnward w url).1 →
      i = url ∧ b = true ∧ p = true) ∧
    (∀ rt, Event.reset rt ∈ (insertOnward w url).1 → rt = "On") := by
  unfold insertOnward
  cases w.insertRes <;> cases w.resetRes <;> cases w.ejectPost <;>
    exact ⟨by simp, fun i b p h => by simpa using h,
      fun rt h => by simpa using h⟩

/-- C7: whenever the run reaches the insert step, the insert call passes
the target image URL with the inserted flag and the write-protected flag
both `true`, and every power command issued to the system uses the "On"
reset type. -/
theorem insert_flags_and_on_reset (w : BMCWorld) (url : String)
    (vm : VirtualMedia)
    (hp : w.parseErr = none) (hc : w.connectErr = none)
    (hg : w.getSystemErr = none)
    (hd : discoverVM none w.managers = Except.ok (some vm))
    (hej : vm.Inserted = true → w.ejectPre = none) :
    Event.insertMedia url true true ∈ (testVirtualMedia w url).1 ∧
    (∀ i b p, Event.insertMedia i b p ∈ (testVirtualMedia w url).1 →
      i = url ∧ b = true ∧ p = true) ∧
    (∀ rt, Event.reset rt ∈ (testVirtualMedia w url).1 → rt = "On") := by
  rw [testVM_selected w url vm hp hc hg hd]
  obtain ⟨h1, h2, h3⟩ := insertOnward_events w url
  cases hi : vm.Inserted with
  | false =>
    rw [if_neg Bool.false_ne_true]
    exact ⟨h1, h2, h3⟩
  | true =>
    rw [hej hi, if_pos rfl]
    refine ⟨by simp [h1], ?_, ?_⟩
    · intro i b p h
      have hmem : Event.insertMedia i b p ∈ (insertOnward w url).1 := by
        simpa using h
      exact h2 i b p hmem
    · intro rt h
      have hmem : Event.reset rt ∈ (insertOnward w url).1 := by
        simpa using h
      exact h3 rt hmem

/-- C7 witness: a successful run issues the insert of the constructed image
URL with both flags true. -/
theorem insert_flags_and_on_reset_witness :
    Event.insertMedia "http://host/images/test-config.iso" true true
      ∈ (testVirtualMedia
          (BMCWorld.mk none none none
            [ManagerFetch.ok [VirtualMedia.mk "Cd4" [MediaType.CD] false]]
            none none none none)
          "http://host/images/test-config.iso").1 :=
  (insert_flags_and_on_reset
    (BMCWorld.mk none none none
      [ManagerFetch.ok [VirtualMedia.mk "Cd4" [MediaType.CD] false]]
      none none none none)
    "http://host/images/test-config.iso"
    (VirtualMedia.mk "Cd4" [MediaType.CD] false)
    rfl rfl rfl rfl (by decide)).1

/-- C9: `startHTTPServer` serves HTTPS exactly when both the key-file path
and the cert-file path are non-empty; in every other case — including
exactly one of the two supplied — it serves plain HTTP; the listen address
is ":" followed by the configured port in both modes. -/
theorem tls_iff_both_files (port k c : String) :
    ((startHTTPServer port k c).2 = ServeScheme.https ↔ (k ≠ "" ∧ c ≠ "")) ∧
    ((startHTTPServer port k c).2 = ServeScheme.http ↔ (k = "" ∨ c = "")) ∧
    (startHTTPServer port k c).1 = String.append ":" port := by
  unfold startHTTPServer
  by_cases hk : k = "" <;> by_cases hc : c = "" <;> simp [hk, hc]
